import Mathlib

namespace PurdueAF

/-!
Verification of the purdue-af-vscode broker core against its design
specification. The Go sources are shallowly embedded: Go maps become
association lists with overwrite-on-insert semantics, `time.Time` becomes
`Nat` (with `time.Now().After(t)` rendered as `now > t`), Kubernetes API
calls become explicit state passing over a `ClusterState` record, and
sources of nondeterminism (random session ids, random tokens, fresh UUIDs,
random PKCE bytes, injected upstream failures) become explicit arguments.
-/

/-! ## Association-list maps

Go `map[K]V` values are embedded as association lists. `insert` overwrites
any previous binding of the key (Go assignment `m[k] = v`) and `erase`
removes every binding of the key (Go `delete(m, k)`); with these two as the
only mutations, the key lists stay duplicate-free. -/

abbrev AssocMap (α β : Type) := List (α × β)

namespace AssocMap

variable {α β : Type} [DecidableEq α]

def lookup : AssocMap α β → α → Option β
  | [], _ => none
  | (k, v) :: rest, k' => if k' = k then some v else lookup rest k'

def erase (m : AssocMap α β) (k : α) : AssocMap α β :=
  m.filter (fun p => decide (p.1 ≠ k))

def insert (m : AssocMap α β) (k : α) (v : β) : AssocMap α β :=
  (k, v) :: m.erase k

/-- Keys of the map, as a list. -/
def keyList (m : AssocMap α β) : List α := m.map Prod.fst

/-- Well-formedness of the embedding: no duplicate keys. -/
def KeysNodup (m : AssocMap α β) : Prop := (keyList m).Nodup

instance (m : AssocMap α β) : Decidable (KeysNodup m) := by
  unfold KeysNodup; infer_instance

end AssocMap

/-! ## Shared data types (internal/types/types.go) -/

/-- PodInfo from types.go; the Go field `Namespace` is rendered
`namespaceName` because `namespace` is reserved in Lean. -/
structure PodInfo where
  name : String
  namespaceName : String
  status : String
  deriving DecidableEq, Repr

/-- Session from types.go. `time.Time` fields are embedded as `Nat`. -/
structure Session where
  id : String
  userID : String
  token : String
  podInfo : PodInfo
  createdAt : Nat
  expiresAt : Nat
  refreshToken : String
  deriving DecidableEq, Repr

structure ExecRequest where
  command : String
  args : List String
  stdin : Bool
  stdout : Bool
  stderr : Bool
  deriving DecidableEq, Repr

structure ExecResponse where
  exitCode : Int
  stdout : String
  stderr : String
  deriving DecidableEq, Repr

structure PortForwardRequest where
  port : Nat
  deriving DecidableEq, Repr

structure FileOperation where
  operation : String
  path : String
  content : String
  deriving DecidableEq, Repr

structure FileOperationResponse where
  success : Bool
  content : String
  error : String
  deriving DecidableEq, Repr

/-! ## Session registry (internal/session/inmemory.go)

The three error strings returned by the store ("session not found",
"invalid token", "session expired") become the three constructors of
`SessionError`. The JWT session token and the random session id are
produced by `crypto/rand`-seeded helpers; the embedding takes them as
arguments of `create`. The `sync.RWMutex` serialises store operations, so
the sequential functions below are the per-operation semantics. -/

inductive SessionError where
  | sessionNotFound
  | invalidToken
  | sessionExpired
  deriving DecidableEq, Repr

instance {ε α : Type} [DecidableEq ε] [DecidableEq α] :
    DecidableEq (Except ε α) := fun a b =>
  match a, b with
  | .ok x, .ok y =>
    if h : x = y then .isTrue (by rw [h])
    else .isFalse (fun hc => h (Except.ok.inj hc))
  | .error x, .error y =>
    if h : x = y then .isTrue (by rw [h])
    else .isFalse (fun hc => h (Except.error.inj hc))
  | .ok _, .error _ => .isFalse Except.noConfusion
  | .error _, .ok _ => .isFalse Except.noConfusion

structure CreateRequest where
  userID : String
  refreshToken : String
  podInfo : PodInfo
  deriving DecidableEq, Repr

structure InMemoryStore where
  sessions : AssocMap String Session
  tokens : AssocMap String String
  ttl : Nat
  deriving DecidableEq, Repr

namespace InMemoryStore

/-- InMemoryStore.Create: builds the Session record and registers it in
both maps. The generated session id, generated signed token and the
current time are explicit arguments. -/
def create (st : InMemoryStore) (req : CreateRequest)
    (sessionID sessionToken : String) (now : Nat) :
    InMemoryStore × Session :=
  let session : Session :=
    { id := sessionID
      userID := req.userID
      token := sessionToken
      podInfo := req.podInfo
      createdAt := now
      expiresAt := now + st.ttl
      refreshToken := req.refreshToken }
  ({ st with
      sessions := AssocMap.insert st.sessions sessionID session
      tokens := AssocMap.insert st.tokens sessionToken sessionID },
    session)

/-- InMemoryStore.Get: id lookup, then lazy expiry check
(`time.Now().After(session.ExpiresAt)` is `now > expiresAt`). -/
def get (st : InMemoryStore) (sessionID : String) (now : Nat) :
    Except SessionError Session :=
  match AssocMap.lookup st.sessions sessionID with
  | none => .error .sessionNotFound
  | some s => if now > s.expiresAt then .error .sessionExpired else .ok s

/-- InMemoryStore.GetByToken: token-index lookup ("invalid token"), then
session lookup ("session not found"), then lazy expiry check. -/
def getByToken (st : InMemoryStore) (token : String) (now : Nat) :
    Except SessionError Session :=
  match AssocMap.lookup st.tokens token with
  | none => .error .invalidToken
  | some sessionID =>
    match AssocMap.lookup st.sessions sessionID with
    | none => .error .sessionNotFound
    | some s => if now > s.expiresAt then .error .sessionExpired else .ok s

/-- InMemoryStore.Delete: fails with "session not found" for an absent id,
otherwise removes the session from both maps. Makes no call outside the
two maps (in particular no credential revocation). -/
def delete (st : InMemoryStore) (sessionID : String) :
    Except SessionError InMemoryStore :=
  match AssocMap.lookup st.sessions sessionID with
  | none => .error .sessionNotFound
  | some s =>
    .ok { st with
            sessions := AssocMap.erase st.sessions sessionID
            tokens := AssocMap.erase st.tokens s.token }

/-- InMemoryStore.CleanupExpired: iterates over the session map and
removes every expired session together with its token-index entry. The Go
`for range` with in-loop `delete` only ever deletes the entry being
visited, so folding over the entry list of the map at entry is the loop's
semantics. -/
def cleanupStep (now : Nat) (acc : InMemoryStore) (p : String × Session) :
    InMemoryStore :=
  if now > p.2.expiresAt then
    { acc with
        sessions := AssocMap.erase acc.sessions p.1
        tokens := AssocMap.erase acc.tokens p.2.token }
  else acc

def cleanupExpired (st : InMemoryStore) (now : Nat) : InMemoryStore :=
  st.sessions.foldl (cleanupStep now) st

/-! ### Mutual consistency of the two maps -/

/-- Cross-reference consistency: every token-index entry points at a
stored session carrying that token, and every stored session's token is
indexed back to that session's id. -/
def Consistent (st : InMemoryStore) : Prop :=
  (∀ p ∈ st.tokens,
      (AssocMap.lookup st.sessions p.2).map Session.token = some p.1) ∧
  (∀ q ∈ st.sessions,
      AssocMap.lookup st.tokens q.2.token = some q.1)

instance (st : InMemoryStore) : Decidable (Consistent st) := by
  unfold Consistent; infer_instance

/-- Full store invariant: duplicate-free keys in both maps plus
cross-reference consistency. -/
def Inv (st : InMemoryStore) : Prop :=
  AssocMap.KeysNodup st.sessions ∧ AssocMap.KeysNodup st.tokens ∧
    Consistent st

instance (st : InMemoryStore) : Decidable (Inv st) := by
  unfold Inv; infer_instance

/-! ### Sequences of store operations -/

/-- One call against the store. `createOp` carries the generated session
id, the generated signed token and the call time; `cleanupOp` carries the
sweep time. -/
inductive StoreOp where
  | createOp (req : CreateRequest) (sessionID sessionToken : String)
      (now : Nat)
  | deleteOp (sessionID : String)
  | cleanupOp (now : Nat)
  deriving DecidableEq, Repr

def applyOp (st : InMemoryStore) : StoreOp → InMemoryStore
  | .createOp req sid tok now => (create st req sid tok now).1
  | .deleteOp sid =>
    match delete st sid with
    | .ok st' => st'
    | .error _ => st
  | .cleanupOp now => cleanupExpired st now

/-- A create call uses a freshly generated id and token (the Go code draws
both from `crypto/rand`; collision would silently overwrite). -/
def FreshOp (st : InMemoryStore) : StoreOp → Prop
  | .createOp _ sid tok _ =>
    AssocMap.lookup st.sessions sid = none ∧
      AssocMap.lookup st.tokens tok = none
  | .deleteOp _ => True
  | .cleanupOp _ => True

instance (st : InMemoryStore) : (op : StoreOp) → Decidable (FreshOp st op)
  | .createOp _ _ _ _ => inferInstanceAs (Decidable (_ ∧ _))
  | .deleteOp _ => inferInstanceAs (Decidable True)
  | .cleanupOp _ => inferInstanceAs (Decidable True)

def ValidOps : InMemoryStore → List StoreOp → Prop
  | _, [] => True
  | st, op :: ops => FreshOp st op ∧ ValidOps (applyOp st op) ops

instance instDecidableValidOps :
    (st : InMemoryStore) → (ops : List StoreOp) →
      Decidable (ValidOps st ops)
  | _, [] => .isTrue trivial
  | st, op :: ops =>
    letI := instDecidableValidOps (applyOp st op) ops
    inferInstanceAs (Decidable (_ ∧ _))

def run (st : InMemoryStore) (ops : List StoreOp) : InMemoryStore :=
  ops.foldl applyOp st

end InMemoryStore

def emptyStore : InMemoryStore :=
  { sessions := [], tokens := [], ttl := 86400 }

def demoPod : PodInfo :=
  { name := "nb-alice", namespaceName := "user-alice", status := "Running" }

def demoReq : CreateRequest :=
  { userID := "alice@purdue.edu", refreshToken := "rt", podInfo := demoPod }

def demoOps : List InMemoryStore.StoreOp :=
  [ .createOp demoReq "sessA" "tokA" 0,
    .createOp demoReq "sessB" "tokB" 10,
    .deleteOp "sessA",
    .createOp demoReq "sessC" "tokC" 100000,
    .cleanupOp 90000 ]

/-! ## Claims C3 and C4: registry delete and lookup error behaviour -/

def c3Session : Session :=
  { id := "s1", userID := "alice@purdue.edu", token := "t1",
    podInfo := demoPod, createdAt := 0, expiresAt := 3600,
    refreshToken := "rt" }

def c3Store : InMemoryStore :=
  { sessions := [("s1", c3Session)], tokens := [("t1", "s1")], ttl := 3600 }

def c3StoreAfter : InMemoryStore :=
  { sessions := [], tokens := [], ttl := 3600 }

def c4Session : Session :=
  { id := "s9", userID := "bob@purdue.edu", token := "t9",
    podInfo := demoPod, createdAt := 0, expiresAt := 10,
    refreshToken := "rt" }

def c4Store : InMemoryStore :=
  { sessions := [("s9", c4Session)], tokens := [("t9", "s9")], ttl := 10 }

def c4StoreAfter : InMemoryStore :=
  { sessions := [], tokens := [], ttl := 10 }

/-! ## Kubernetes client (internal/k8s/client.go)

The cluster is modelled as the sets of ServiceAccounts, Roles and
RoleBindings it holds, each identified by (namespace, name). Kubernetes
Create calls succeed iff the object is absent and Delete calls succeed iff
it is present; upstream failures of the RoleBinding create and of the
TokenRequest are injected through explicit Boolean arguments. -/

structure ClusterState where
  serviceAccounts : List (String × String)
  roles : List (String × String)
  roleBindings : List (String × String)
  deriving DecidableEq, Repr

inductive K8sError where
  | createSAFailed
  | createRoleBindingFailed
  | mintTokenFailed
  | deleteSAFailed
  deriving DecidableEq, Repr

def exceptIsError {ε α : Type} : Except ε α → Bool
  | .error _ => true
  | .ok _ => false

namespace K8s

/-- Client.CreateServiceAccount. -/
def createServiceAccount (st : ClusterState) (ns name : String) :
    ClusterState × Option K8sError :=
  if (ns, name) ∈ st.serviceAccounts then (st, some .createSAFailed)
  else ({ st with serviceAccounts := (ns, name) :: st.serviceAccounts },
    none)

/-- RoleBinding name `fmt.Sprintf("vscode-session-%s", saName)`, used both
by CreateRoleBinding and by DeleteServiceAccount. -/
def roleBindingName (saName : String) : String :=
  "vscode-session-" ++ saName

/-- Client.CreateRoleBinding: first creates the shared "vscode-session"
Role, ignoring an already-exists error, then creates the RoleBinding named
`roleBindingName saName`. `bindingFails` injects an upstream failure of
the RoleBinding create; the create also fails when the binding exists. -/
def createRoleBinding (st : ClusterState) (ns saName podName : String)
    (bindingFails : Bool) : ClusterState × Option K8sError :=
  let st1 :=
    if (ns, "vscode-session") ∈ st.roles then st
    else { st with roles := (ns, "vscode-session") :: st.roles }
  if bindingFails = true ∨ (ns, roleBindingName saName) ∈ st1.roleBindings
  then (st1, some .createRoleBindingFailed)
  else ({ st1 with
            roleBindings := (ns, roleBindingName saName) :: st1.roleBindings },
    none)

/-- Client.MintToken: requests a bearer token for the ServiceAccount (the
cluster state is unchanged). `mintFails` injects an upstream failure; the
request also fails when the ServiceAccount is absent. The uninterpreted token
value handed back by the cluster is rendered deterministically. -/
def mintToken (st : ClusterState) (ns saName : String) (ttl : Nat)
    (mintFails : Bool) : Except K8sError String :=
  if mintFails = true ∨ (ns, saName) ∉ st.serviceAccounts then
    .error .mintTokenFailed
  else .ok ("k8s-token-" ++ ns ++ "-" ++ saName)

/-- Client.DeleteServiceAccount: deletes the RoleBinding first, dropping
its error, then deletes the ServiceAccount; a failed ServiceAccount delete
is returned to the caller as an error. -/
def deleteServiceAccount (st : ClusterState) (ns name : String) :
    ClusterState × Option K8sError :=
  let st1 := { st with
    roleBindings :=
      st.roleBindings.filter (fun q => decide (q ≠ (ns, roleBindingName name))) }
  if (ns, name) ∈ st1.serviceAccounts then
    ({ st1 with
        serviceAccounts :=
          st1.serviceAccounts.filter (fun q => decide (q ≠ (ns, name))) },
      none)
  else (st1, some .deleteSAFailed)

/-- ServiceAccount name generated by CreateSessionServiceAccount:
`fmt.Sprintf("vscode-sess-%s", uuid.New().String()[:8])`. -/
def sessionSAName (uuid : String) : String :=
  "vscode-sess-" ++ uuid.take 8

/-- Client.CreateSessionServiceAccount: creates the principal, then the
binding (deleting the principal again if that fails), then mints a
one-hour token (deleting the principal again if that fails). The fresh
UUID drawn inside the function is an explicit argument. -/
def createSessionServiceAccount (st : ClusterState)
    (ns podName uuid : String) (bindingFails mintFails : Bool) :
    ClusterState × Except K8sError String :=
  let saName := sessionSAName uuid
  match createServiceAccount st ns saName with
  | (st1, some e) => (st1, .error e)
  | (st1, none) =>
    match createRoleBinding st1 ns saName podName bindingFails with
    | (st2, some e) => ((deleteServiceAccount st2 ns saName).1, .error e)
    | (st2, none) =>
      match mintToken st2 ns saName 3600 mintFails with
      | .error e => ((deleteServiceAccount st2 ns saName).1, .error e)
      | .ok tok => (st2, .ok tok)

end K8s

def emptyCluster : ClusterState :=
  { serviceAccounts := [], roles := [], roleBindings := [] }

def c2UUID : String := "123e4567-e89b-42d3-a456-426614174000"

def c7Cluster : ClusterState :=
  { serviceAccounts := [("user-alice", "vscode-sess-9e107d9d")],
    roles := [("user-alice", "vscode-session")],
    roleBindings :=
      [("user-alice", "vscode-session-vscode-sess-9e107d9d")] }

def c7ClusterAfter : ClusterState :=
  { serviceAccounts := [],
    roles := [("user-alice", "vscode-session")],
    roleBindings := [] }

namespace Tunnel

/-! ## Tunnel multiplexer (part_005, package tunnel) and its HTTP gate
(pkg/api/handlers.go HandleTunnel)

Outbound traffic of one read-loop iteration is the list of TunnelMessages
written to the connection; the loop's continuation or termination is the
step result. Payloads arrive as JSON and are re-decoded per message kind,
so an inbound payload is one of the three recognised request shapes or an
undecodable one. -/

inductive TunnelDecision where
  | rejected (status : Nat)
  | connected (s : Session)
  deriving DecidableEq, Repr

/-- Handlers.HandleTunnel: resolves the query token via GetByToken; on a
registry error or a mismatch between the token's session id and the path's
session id, the request is answered 401 and HandleConnection (which
performs the WebSocket upgrade) is never invoked. -/
def handleTunnel (st : InMemoryStore) (sessionID token : String)
    (now : Nat) : TunnelDecision :=
  match InMemoryStore.getByToken st token now with
  | .error _ => .rejected 401
  | .ok s => if s.id ≠ sessionID then .rejected 401 else .connected s

inductive InPayload where
  | execReq (r : ExecRequest)
  | pfReq (r : PortForwardRequest)
  | fileReq (op : FileOperation)
  | undecodable
  deriving DecidableEq, Repr

structure TunnelMessage where
  type : String
  payload : InPayload
  deriving DecidableEq, Repr

inductive OutPayload where
  | execResp (r : ExecResponse)
  | pfResp (port : Nat) (status message : String)
  | fileResp (r : FileOperationResponse)
  | errorResp (message : String)
  deriving DecidableEq, Repr

structure OutMessage where
  type : String
  payload : OutPayload
  deriving DecidableEq, Repr

/-- Manager.sendError: an "error"-tagged TunnelMessage on the same
connection. -/
def sendError (msg : String) : OutMessage :=
  { type := "error", payload := .errorResp msg }

/-- Go `fmt.Sprintf("%v", args)` for a string slice. -/
def goArgsString (args : List String) : String :=
  "[" ++ String.intercalate " " args ++ "]"

/-- Manager.executeCommand (the mock in part_005). -/
def executeCommand (req : ExecRequest) : ExecResponse :=
  { exitCode := 0,
    stdout := "Executed: " ++ req.command ++ " " ++ goArgsString req.args,
    stderr := "" }

/-- Manager.executeFileOperation (the mock in part_005): only "read" and
"list" are implemented; every other operation, including "write", falls to
the default arm. The Go error result is always nil. -/
def executeFileOperation (req : FileOperation) : FileOperationResponse :=
  if req.operation = "read" then
    { success := true, content := "Content of " ++ req.path, error := "" }
  else if req.operation = "list" then
    { success := true, content := "Directory listing of " ++ req.path,
      error := "" }
  else
    { success := false, content := "",
      error := "Unsupported operation: " ++ req.operation }

/-- Manager.handleExecRequest. -/
def handleExecRequest (p : InPayload) : List OutMessage :=
  match p with
  | .execReq r =>
    [{ type := "exec_response", payload := .execResp (executeCommand r) }]
  | _ => [sendError "Invalid exec request format"]

/-- Manager.startPortForward (the mock in part_005). -/
def startPortForward (port : Nat) : OutMessage :=
  { type := "portforward_response",
    payload := .pfResp port "started"
      ("Port forwarding started on port " ++ toString port) }

/-- Manager.handlePortForwardRequest. -/
def handlePortForwardRequest (p : InPayload) : List OutMessage :=
  match p with
  | .pfReq r => [startPortForward r.port]
  | _ => [sendError "Invalid portforward request format"]

/-- Manager.handleFileRequest. -/
def handleFileRequest (p : InPayload) : List OutMessage :=
  match p with
  | .fileReq op =>
    [{ type := "file_response",
       payload := .fileResp (executeFileOperation op) }]
  | _ => [sendError "Invalid file request format"]

/-- One event consumed by Manager.handleTunnelMessages' read loop. -/
inductive ReadEvent where
  | closed
  | malformed (errText : String)
  | msg (m : TunnelMessage)
  deriving DecidableEq, Repr

inductive StepResult where
  | exitLoop
  | respond (out : List OutMessage)
  deriving DecidableEq, Repr

/-- One iteration of Manager.handleTunnelMessages: a read error ends the
loop; undecodable bytes and every dispatched message, the unrecognized tag
included, answer on the connection and continue the loop. -/
def stepTunnelLoop : ReadEvent → StepResult
  | .closed => .exitLoop
  | .malformed errText =>
    .respond [sendError ("Invalid message format: " ++ errText)]
  | .msg m =>
    if m.type = "exec" then .respond (handleExecRequest m.payload)
    else if m.type = "portforward" then
      .respond (handlePortForwardRequest m.payload)
    else if m.type = "file" then .respond (handleFileRequest m.payload)
    else .respond [sendError ("Unknown message type: " ++ m.type)]

/-- HandleConnection's credential mint at tunnel open: a session
ServiceAccount created in the session pod's namespace under a name drawn
from a fresh UUID. -/
def tunnelOpenMint (st : ClusterState) (s : Session) (uuid : String)
    (bf mf : Bool) : ClusterState × Except K8sError String :=
  K8s.createSessionServiceAccount st s.podInfo.namespaceName
    s.podInfo.name uuid bf mf

/-- The name HandleConnection's deferred cleanup deletes:
`fmt.Sprintf("vscode-sess-%s", session.ID[:8])` — derived from the
session id rather than from the UUID used at creation time. -/
def tunnelCloseCleanupName (s : Session) : String :=
  "vscode-sess-" ++ s.id.take 8

/-- HandleConnection's deferred cleanup at tunnel close. -/
def tunnelCloseCleanup (st : ClusterState) (s : Session) :
    ClusterState × Option K8sError :=
  K8s.deleteServiceAccount st s.podInfo.namespaceName
    (tunnelCloseCleanupName s)

end Tunnel

def c1Session : Session :=
  { id := "3f29ab01c4d5e6f7a8b9c0d1e2f30415",
    userID := "alice@purdue.edu", token := "tok1", podInfo := demoPod,
    createdAt := 0, expiresAt := 86400, refreshToken := "rt" }

def c1UUID : String := "9e107d9d-372b-4a1c-8a2f-5f6e7d8c9b0a"

def c9WriteOp : FileOperation :=
  { operation := "write", path := "/home/alice/notes.txt",
    content := "hello" }

def c9ReadOp : FileOperation :=
  { operation := "read", path := "/home/alice/notes.txt", content := "" }

namespace Base64

/-! ## PKCE login flow (internal/auth/cilogon.go)

Go's `encoding/base64` URL alphabet, in the padded variant used for the
encoded flow state and the unpadded variant used for the code verifier and
code challenge, is implemented over byte lists (`Nat` below 256). SHA-256
itself is the standard library's crypto primitive and enters the embedding
as an explicit hash-function argument; the property proved is about the
plumbing around it, for every hash function. -/

/-- Byte triples to sextet quadruples, with the 1- and 2-byte tail cases
of RFC 4648. -/
def encSextets : List Nat → List Nat
  | [] => []
  | [a] => [a / 4, a % 4 * 16]
  | [a, b] => [a / 4, a % 4 * 16 + b / 16, b % 16 * 4]
  | a :: b :: c :: rest =>
    a / 4 :: (a % 4 * 16 + b / 16) :: (b % 16 * 4 + c / 64) :: c % 64 ::
      encSextets rest

/-- Sextet quadruples back to byte triples, with the tail cases. A single
trailing sextet cannot occur in valid input. -/
def decSextets : List Nat → Option (List Nat)
  | [] => some []
  | [_] => none
  | [x, y] => some [x * 4 + y / 16]
  | [x, y, z] => some [x * 4 + y / 16, y % 16 * 16 + z / 4]
  | x :: y :: z :: w :: rest =>
    (decSextets rest).map
      (fun bs =>
        (x * 4 + y / 16) :: (y % 16 * 16 + z / 4) :: (z % 4 * 64 + w) :: bs)

/-- URL-safe alphabet of RFC 4648 section 5. -/
def sextetToChar (n : Nat) : Char :=
  if n < 26 then Char.ofNat (65 + n)
  else if n < 52 then Char.ofNat (97 + (n - 26))
  else if n < 62 then Char.ofNat (48 + (n - 52))
  else if n = 62 then '-'
  else '_'

def charToSextet (c : Char) : Option Nat :=
  if 65 ≤ c.toNat ∧ c.toNat ≤ 90 then some (c.toNat - 65)
  else if 97 ≤ c.toNat ∧ c.toNat ≤ 122 then some (c.toNat - 97 + 26)
  else if 48 ≤ c.toNat ∧ c.toNat ≤ 57 then some (c.toNat - 48 + 52)
  else if c = '-' then some 62
  else if c = '_' then some 63
  else none

/-- base64.URLEncoding.WithPadding(base64.NoPadding).EncodeToString. -/
def base64urlNoPad (bytes : List Nat) : String :=
  String.mk ((encSextets bytes).map sextetToChar)

def padLen (n : Nat) : Nat := (3 - n % 3) % 3

/-- base64.URLEncoding.EncodeToString (padded). -/
def base64urlPadded (bytes : List Nat) : String :=
  String.mk ((encSextets bytes).map sextetToChar ++
    List.replicate (padLen bytes.length) '=')

def stripTrailingPad (cs : List Char) : List Char :=
  (cs.reverse.dropWhile (fun c => decide (c = '='))).reverse

def decodeChars : List Char → Option (List Nat)
  | [] => some []
  | c :: cs =>
    (charToSextet c).bind fun s => (decodeChars cs).map (fun l => s :: l)

/-- base64.URLEncoding.DecodeString. -/
def base64urlDecode (s : String) : Option (List Nat) :=
  (decodeChars (stripTrailingPad s.data)).bind decSextets

end Base64

/-- Go `[]byte(s)` for the ASCII strings this flow produces. -/
def stringToBytes (s : String) : List Nat := s.data.map Char.toNat

/-- Go `string(bytes)` for the ASCII byte lists this flow produces. -/
def bytesToString (l : List Nat) : String := String.mk (l.map Char.ofNat)

namespace Auth

/-- Leading characters of the canonical `json.Marshal` output for the
two-key flow-state map (Go sorts map keys, and code_verifier sorts before
state). -/
def jsonHead : List Char := "\x7b\"code_verifier\":\"".data

/-- Characters between the two quoted values. -/
def jsonMid : List Char := ",\"state\":\"".data

/-- json.Marshal of `map[string]string{"state": state, "code_verifier":
codeVerifier}`: the canonical serialization with sorted keys. -/
def marshalStateData (verifier state : String) : String :=
  String.mk (jsonHead ++ (verifier.data ++ ('"' :: (jsonMid ++
    (state.data ++ ('"' :: ('\x7d' :: [])))))))

/-- Consumes a literal lead sequence. -/
def stripLead : List Char → List Char → Option (List Char)
  | [], rest => some rest
  | _ :: _, [] => none
  | p :: ps, c :: cs => if c = p then stripLead ps cs else none

/-- Reads a JSON string body up to and including its closing quote. -/
def takeUntilQuote : List Char → Option (List Char × List Char)
  | [] => none
  | c :: cs =>
    if c = '"' then some ([], cs)
    else (takeUntilQuote cs).map (fun p => (c :: p.1, p.2))

/-- json.Unmarshal into `map[string]string`, specialized to the canonical
object shape `marshalStateData` produces, returning the code_verifier and
state values. -/
def parseStateData (s : String) : Option (String × String) :=
  match stripLead jsonHead s.data with
  | none => none
  | some r1 =>
    match takeUntilQuote r1 with
    | none => none
    | some (v, r2) =>
      match stripLead jsonMid r2 with
      | none => none
      | some r3 =>
        match takeUntilQuote r3 with
        | none => none
        | some (st, r4) =>
          if r4 = ['\x7d'] then some (String.mk v, String.mk st)
          else none

/-- CILogonProvider configuration. -/
structure OIDCConfig where
  issuer : String
  clientID : String
  clientSecret : String
  redirectURL : String
  deriving DecidableEq, Repr

/-- The authorization URL as built by buildAuthURL: base plus the query
parameters set on it (their serialization to one string is lossless for
these keys). -/
structure AuthURL where
  base : String
  params : AssocMap String String
  deriving DecidableEq, Repr

/-- generateCodeVerifier: base64url-no-pad over 128 `crypto/rand` bytes
(the bytes are the explicit argument). -/
def generateCodeVerifier (randomBytes : List Nat) : String :=
  Base64.base64urlNoPad randomBytes

/-- generateCodeChallenge: base64url-no-pad of the SHA-256 digest of the
verifier string's bytes; the SHA-256 primitive is a parameter. -/
def generateCodeChallenge (sha256 : List Nat → List Nat)
    (verifier : String) : String :=
  Base64.base64urlNoPad (sha256 (stringToBytes verifier))

/-- generateState: base64url-no-pad over 32 `crypto/rand` bytes. -/
def generateState (randomBytes : List Nat) : String :=
  Base64.base64urlNoPad randomBytes

/-- CILogonProvider.buildAuthURL. -/
def buildAuthURL (cfg : OIDCConfig) (codeChallenge state : String) :
    AuthURL :=
  { base := cfg.issuer ++ "/authorize",
    params :=
      [("response_type", "code"),
       ("client_id", cfg.clientID),
       ("redirect_uri", cfg.redirectURL),
       ("scope", "openid email org.cilogon.userinfo profile"),
       ("state", state),
       ("code_challenge", codeChallenge),
       ("code_challenge_method", "S256"),
       ("selected_idp",
        "https://cern.ch/login,https://idp.fnal.gov/idp/shibboleth,https://idp.purdue.edu/idp/shibboleth")] }

/-- CILogonProvider.StartFlow: generates verifier, challenge and state,
builds the authorization URL, and returns it with the encoded flow state —
the padded base64url encoding of the JSON-marshalled
{state, code_verifier} map. -/
def startFlow (cfg : OIDCConfig) (sha256 : List Nat → List Nat)
    (verifierRandom stateRandom : List Nat) : AuthURL × String :=
  let codeVerifier := generateCodeVerifier verifierRandom
  let codeChallenge := generateCodeChallenge sha256 codeVerifier
  let state := generateState stateRandom
  let authURL := buildAuthURL cfg codeChallenge state
  let stateJSON := marshalStateData codeVerifier state
  let encodedState := Base64.base64urlPadded (stringToBytes stateJSON)
  (authURL, encodedState)

/-- The state-decoding part of CILogonProvider.HandleCallback:
base64url-decode the flow state, unmarshal the JSON map, read
"code_verifier", and reject an empty result. -/
def handleCallbackVerifier (encodedState : String) : Option String :=
  match Base64.base64urlDecode encodedState with
  | none => none
  | some bytes =>
    match parseStateData (bytesToString bytes) with
    | none => none
    | some (verifier, _) => if verifier = "" then none else some verifier

end Auth

def c8Config : Auth.OIDCConfig :=
  { issuer := "https://cilogon.org", clientID := "client-1",
    clientSecret := "secret",
    redirectURL := "https://broker.example/auth/callback" }

/-- A stand-in digest function for the witness: a fixed 32-byte output. -/
def c8Hash (bs : List Nat) : List Nat := List.replicate 32 7

end PurdueAF

/-! ## Theorems -/

namespace PurdueAF

namespace AssocMap

variable {α β : Type} [DecidableEq α]

theorem erase_cons (a : α) (b : β) (rest : AssocMap α β) (k : α) :
    erase ((a, b) :: rest) k =
      if a = k then erase rest k else (a, b) :: erase rest k := by
  by_cases h : a = k <;> simp [erase, List.filter_cons, h]

theorem lookup_erase_self (m : AssocMap α β) (k : α) :
    lookup (erase m k) k = none := by
  induction m with
  | nil => rfl
  | cons p rest ih =>
    obtain ⟨a, b⟩ := p
    rw [erase_cons]
    by_cases h : a = k
    · simpa [h] using ih
    · simpa [lookup, h, Ne.symm h] using ih

theorem lookup_erase_ne (m : AssocMap α β) {k k' : α} (h : k' ≠ k) :
    lookup (erase m k) k' = lookup m k' := by
  induction m with
  | nil => rfl
  | cons p rest ih =>
    obtain ⟨a, b⟩ := p
    rw [erase_cons]
    by_cases ha : a = k
    · subst ha
      rw [if_pos rfl]
      rw [ih]
      rw [lookup, if_neg h]
    · rw [if_neg ha]
      by_cases hk : k' = a
      · subst hk
        rw [lookup, if_pos rfl, lookup, if_pos rfl]
      · rw [lookup, if_neg hk, lookup, if_neg hk]
        exact ih

theorem lookup_insert_self (m : AssocMap α β) (k : α) (v : β) :
    lookup (insert m k v) k = some v := by
  simp [insert, lookup]

theorem lookup_insert_ne (m : AssocMap α β) {k k' : α} (v : β) (h : k' ≠ k) :
    lookup (insert m k v) k' = lookup m k' := by
  simp [insert, lookup, h, lookup_erase_ne m h]

theorem mem_erase {m : AssocMap α β} {k : α} {p : α × β} :
    p ∈ erase m k ↔ p ∈ m ∧ p.1 ≠ k := by
  simp [erase, List.mem_filter]

theorem mem_of_lookup_eq_some {m : AssocMap α β} {k : α} {v : β}
    (h : lookup m k = some v) : (k, v) ∈ m := by
  induction m with
  | nil => simp [lookup] at h
  | cons p rest ih =>
    obtain ⟨a, b⟩ := p
    by_cases hk : k = a
    · rw [lookup, if_pos hk] at h
      cases h
      subst hk
      exact List.mem_cons_self _ _
    · rw [lookup, if_neg hk] at h
      exact List.mem_cons_of_mem _ (ih h)

theorem lookup_eq_some_of_mem {m : AssocMap α β} (hm : KeysNodup m)
    {k : α} {v : β} (h : (k, v) ∈ m) : lookup m k = some v := by
  induction m with
  | nil => simp at h
  | cons p rest ih =>
    obtain ⟨a, b⟩ := p
    have hnd := List.nodup_cons.mp hm
    rcases List.mem_cons.mp h with h1 | h1
    · cases h1
      simp [lookup]
    · have hk : k ≠ a := by
        intro hkp
        apply hnd.1
        subst hkp
        simpa [keyList] using List.mem_map_of_mem Prod.fst h1
      rw [lookup, if_neg hk]
      exact ih hnd.2 h1

theorem keysNodup_erase {m : AssocMap α β} (hm : KeysNodup m) (k : α) :
    KeysNodup (erase m k) :=
  ((List.filter_sublist m).map Prod.fst).nodup hm

theorem not_mem_keyList_erase (m : AssocMap α β) (k : α) :
    k ∉ keyList (erase m k) := by
  intro hmem
  rcases List.mem_map.mp hmem with ⟨q, hq, hq1⟩
  exact (mem_erase.mp hq).2 hq1

theorem keysNodup_insert {m : AssocMap α β} (hm : KeysNodup m) (k : α) (v : β) :
    KeysNodup (insert m k v) :=
  List.nodup_cons.mpr ⟨not_mem_keyList_erase m k, keysNodup_erase hm k⟩

end AssocMap

namespace InMemoryStore

theorem token_inj (st : InMemoryStore) (hInv : Inv st)
    {i1 i2 : String} {s1 s2 : Session}
    (h1 : AssocMap.lookup st.sessions i1 = some s1)
    (h2 : AssocMap.lookup st.sessions i2 = some s2)
    (ht : s1.token = s2.token) : i1 = i2 := by
  have m1 := AssocMap.mem_of_lookup_eq_some h1
  have m2 := AssocMap.mem_of_lookup_eq_some h2
  have e1 := hInv.2.2.2 _ m1
  have e2 := hInv.2.2.2 _ m2
  simp only at e1 e2
  rw [ht] at e1
  exact Option.some.inj (e1.symm.trans e2)

theorem inv_create (st : InMemoryStore) (req : CreateRequest)
    (sid tok : String) (now : Nat) (hInv : Inv st)
    (hs : AssocMap.lookup st.sessions sid = none)
    (ht : AssocMap.lookup st.tokens tok = none) :
    Inv (create st req sid tok now).1 := by
  obtain ⟨hndS, hndT, hc1, hc2⟩ := hInv
  refine ⟨AssocMap.keysNodup_insert hndS _ _,
    AssocMap.keysNodup_insert hndT _ _, ?_, ?_⟩
  · intro p hp
    rcases List.mem_cons.mp hp with h1 | h1
    · subst h1
      simp [create, AssocMap.lookup_insert_self]
    · obtain ⟨hmem, hne⟩ := AssocMap.mem_erase.mp h1
      rcases Option.map_eq_some'.mp (hc1 p hmem) with ⟨s1, hl1, ht1⟩
      have hne2 : p.2 ≠ sid := by
        intro hc
        rw [hc, hs] at hl1
        exact Option.noConfusion hl1
      simp only [create]
      rw [AssocMap.lookup_insert_ne _ _ hne2, hl1]
      simpa using ht1
  · intro q hq
    rcases List.mem_cons.mp hq with h1 | h1
    · subst h1
      simp [create, AssocMap.lookup_insert_self]
    · obtain ⟨hmem, hne⟩ := AssocMap.mem_erase.mp h1
      have hl2 := hc2 q hmem
      have hne2 : q.2.token ≠ tok := by
        intro hc
        rw [hc, ht] at hl2
        exact Option.noConfusion hl2
      simp only [create]
      rw [AssocMap.lookup_insert_ne _ _ hne2]
      exact hl2

theorem inv_delete (st st' : InMemoryStore) (sid : String) (hInv : Inv st)
    (h : delete st sid = .ok st') : Inv st' := by
  obtain ⟨hndS, hndT, hc1, hc2⟩ := hInv
  unfold delete at h
  cases hl : AssocMap.lookup st.sessions sid with
  | none => rw [hl] at h; exact Except.noConfusion h
  | some s =>
    rw [hl] at h
    cases h
    refine ⟨AssocMap.keysNodup_erase hndS _,
      AssocMap.keysNodup_erase hndT _, ?_, ?_⟩
    · intro p hp
      obtain ⟨hmem, hne⟩ := AssocMap.mem_erase.mp hp
      rcases Option.map_eq_some'.mp (hc1 p hmem) with ⟨s1, hl1, ht1⟩
      have hne2 : p.2 ≠ sid := by
        intro hc
        rw [hc, hl] at hl1
        cases hl1
        exact hne (ht1 ▸ rfl)
      simp only
      rw [AssocMap.lookup_erase_ne _ hne2, hl1]
      simpa using ht1
    · intro q hq
      obtain ⟨hmem, hne⟩ := AssocMap.mem_erase.mp hq
      have hl2 := hc2 q hmem
      have hsid := hc2 (sid, s) (AssocMap.mem_of_lookup_eq_some hl)
      have hne2 : q.2.token ≠ s.token := by
        intro hc
        rw [hc] at hl2
        simp only at hsid
        rw [hl2] at hsid
        exact hne (Option.some.inj hsid)
      simp only
      rw [AssocMap.lookup_erase_ne _ hne2]
      exact hl2

theorem inv_cleanup_go (st : InMemoryStore) (hInv : Inv st) :
    ∀ (l : List (String × Session)) (acc : InMemoryStore),
      (∀ p ∈ l, AssocMap.lookup st.sessions p.1 = some p.2) →
      Inv acc →
      (∀ i s, AssocMap.lookup acc.sessions i = some s →
        AssocMap.lookup st.sessions i = some s) →
      Inv (l.foldl (cleanupStep now) acc) := by
  intro l
  induction l with
  | nil => intro acc _ hacc _; exact hacc
  | cons p l ih =>
    intro acc hl hacc hsub
    obtain ⟨hndS, hndT, hc1, hc2⟩ := hacc
    have hM : AssocMap.lookup st.sessions p.1 = some p.2 :=
      hl p (List.mem_cons_self _ _)
    rw [List.foldl_cons]
    by_cases hexp : now > p.2.expiresAt
    · have hstep : cleanupStep now acc p =
        { acc with
            sessions := AssocMap.erase acc.sessions p.1
            tokens := AssocMap.erase acc.tokens p.2.token } := by
        simp [cleanupStep, hexp]
      rw [hstep]
      apply ih _ (fun q hq => hl q (List.mem_cons_of_mem _ hq))
      · refine ⟨AssocMap.keysNodup_erase hndS _,
          AssocMap.keysNodup_erase hndT _, ?_, ?_⟩
        · intro q hq
          obtain ⟨hmem, hne⟩ := AssocMap.mem_erase.mp hq
          rcases Option.map_eq_some'.mp (hc1 q hmem) with ⟨s1, hl1, ht1⟩
          have hne2 : q.2 ≠ p.1 := by
            intro hc
            rw [hc] at hl1
            have := hsub _ _ hl1
            rw [hM] at this
            cases this
            exact hne (ht1 ▸ rfl)
          simp only
          rw [AssocMap.lookup_erase_ne _ hne2, hl1]
          simpa using ht1
        · intro q hq
          obtain ⟨hmem, hne⟩ := AssocMap.mem_erase.mp hq
          have hl2 := hc2 q hmem
          have hne2 : q.2.token ≠ p.2.token := by
            intro hc
            have hq1 : AssocMap.lookup acc.sessions q.1 = some q.2 :=
              AssocMap.lookup_eq_some_of_mem hndS hmem
            have hqM := hsub _ _ hq1
            exact hne (token_inj st hInv hqM hM hc)
          simp only
          rw [AssocMap.lookup_erase_ne _ hne2]
          exact hl2
      · intro i s hi
        by_cases hip : i = p.1
        · rw [hip] at hi
          simp only at hi
          rw [AssocMap.lookup_erase_self] at hi
          exact Option.noConfusion hi
        · simp only at hi
          rw [AssocMap.lookup_erase_ne _ hip] at hi
          exact hsub _ _ hi
    · have hstep : cleanupStep now acc p = acc := by
        simp [cleanupStep, hexp]
      rw [hstep]
      exact ih acc (fun q hq => hl q (List.mem_cons_of_mem _ hq))
        ⟨hndS, hndT, hc1, hc2⟩ hsub

theorem inv_cleanupExpired (st : InMemoryStore) (now : Nat)
    (hInv : Inv st) : Inv (cleanupExpired st now) := by
  apply inv_cleanup_go st hInv st.sessions st
  · intro p hp
    have := AssocMap.lookup_eq_some_of_mem hInv.1 (k := p.1) (v := p.2)
    simpa using this hp
  · exact hInv
  · intro i s h; exact h

theorem inv_applyOp (st : InMemoryStore) (op : StoreOp) (hInv : Inv st)
    (hF : FreshOp st op) : Inv (applyOp st op) := by
  cases op with
  | createOp req sid tok now =>
    exact inv_create st req sid tok now hInv hF.1 hF.2
  | deleteOp sid =>
    simp only [applyOp]
    cases h : delete st sid with
    | ok st' => exact inv_delete st st' sid hInv h
    | error e => exact hInv
  | cleanupOp now => exact inv_cleanupExpired st now hInv

end InMemoryStore

/-- C10: after any valid sequence of Create, Delete and CleanupExpired
calls (valid: each Create uses a freshly generated id and token) starting
from a consistent store, the two maps stay mutually consistent: every
tokens-index entry refers to a stored session whose Token field equals the
indexed token, and every stored session's token is indexed back to it. -/
theorem C10_store_maps_mutually_consistent (st : InMemoryStore)
    (ops : List InMemoryStore.StoreOp) (hInv : InMemoryStore.Inv st)
    (hops : InMemoryStore.ValidOps st ops) :
    InMemoryStore.Inv (InMemoryStore.run st ops) := by
  induction ops generalizing st with
  | nil => exact hInv
  | cons op ops ih =>
    exact ih _ (InMemoryStore.inv_applyOp st op hInv hops.1) hops.2

/-- Witness for C10: a concrete five-operation run from the empty store. -/
theorem C10_witness :
    InMemoryStore.Inv (InMemoryStore.run emptyStore demoOps) :=
  C10_store_maps_mutually_consistent emptyStore demoOps (by decide)
    (by decide)

/-- C3 counterexample: deleting the only session succeeds, but a getByToken
with that session's token afterwards fails with the "invalid token" error,
not "session not found" as the claim states; moreover Delete consists of
exactly the two map removals shown, so it never invokes any credential
revocation. -/
theorem C3_counterexample :
    InMemoryStore.delete c3Store "s1" = .ok c3StoreAfter ∧
    InMemoryStore.getByToken c3StoreAfter "t1" 0 = .error .invalidToken ∧
    InMemoryStore.getByToken c3StoreAfter "t1" 0 ≠
      .error .sessionNotFound := by decide

/-- C3 (amended): for every stored session id, Delete removes the session
from both maps and does nothing else (in particular it performs no
credential revocation: its entire effect is the two map erasures shown); a
second Delete of the same id fails with "session not found"; getByToken
with the deleted session's token fails with "invalid token". -/
theorem C3_delete_removes_without_revoke (st : InMemoryStore)
    (sid : String) (s : Session)
    (h : AssocMap.lookup st.sessions sid = some s) :
    InMemoryStore.delete st sid =
      .ok { st with
              sessions := AssocMap.erase st.sessions sid
              tokens := AssocMap.erase st.tokens s.token } ∧
    InMemoryStore.delete
      { st with
          sessions := AssocMap.erase st.sessions sid
          tokens := AssocMap.erase st.tokens s.token } sid =
      .error .sessionNotFound ∧
    ∀ now,
      InMemoryStore.getByToken
        { st with
            sessions := AssocMap.erase st.sessions sid
            tokens := AssocMap.erase st.tokens s.token } s.token now =
      .error .invalidToken := by
  refine ⟨?_, ?_, ?_⟩
  · unfold InMemoryStore.delete
    rw [h]
  · unfold InMemoryStore.delete
    simp [AssocMap.lookup_erase_self]
  · intro now
    unfold InMemoryStore.getByToken
    simp [AssocMap.lookup_erase_self]

/-- Witness for C3: the amended theorem applied to the one-session store. -/
theorem C3_witness :
    InMemoryStore.delete c3Store "s1" =
      .ok { c3Store with
              sessions := AssocMap.erase c3Store.sessions "s1"
              tokens := AssocMap.erase c3Store.tokens c3Session.token } ∧
    InMemoryStore.getByToken
      { c3Store with
          sessions := AssocMap.erase c3Store.sessions "s1"
          tokens := AssocMap.erase c3Store.tokens c3Session.token }
      c3Session.token 42 = .error .invalidToken :=
  ⟨(C3_delete_removes_without_revoke c3Store "s1" c3Session (by decide)).1,
   (C3_delete_removes_without_revoke c3Store "s1" c3Session
      (by decide)).2.2 42⟩

/-- C4 counterexample: lookup by token of a deleted (hence absent) session
fails with "invalid token", not "session not found"; and an expired-but-
not-yet-swept session is reported as "session expired" by Get while a
deleted one is reported as "session not found", so the two are
distinguishable, contrary to the claim. -/
theorem C4_counterexample :
    InMemoryStore.delete c4Store "s9" = .ok c4StoreAfter ∧
    InMemoryStore.getByToken c4StoreAfter "t9" 5 = .error .invalidToken ∧
    InMemoryStore.getByToken c4StoreAfter "t9" 5 ≠
      .error .sessionNotFound ∧
    InMemoryStore.get c4Store "s9" 20 = .error .sessionExpired ∧
    InMemoryStore.get c4StoreAfter "s9" 20 ≠
      InMemoryStore.get c4Store "s9" 20 := by decide

/-- C4 (amended): Get fails with "session not found" when the id is absent
and with "session expired" when the session is past its absolute expiry;
GetByToken fails with "invalid token" when the token is unindexed, with
"session not found" when the indexed session is gone, and with "session
expired" past expiry; the expiry check is lazy on every read, so no read
ever returns an expired session — but an expired-not-yet-swept session is
reported as expired, which is distinguishable from the deleted case. -/
theorem C4_lookup_error_behaviour (st : InMemoryStore) (sid tok : String)
    (now : Nat) :
    (AssocMap.lookup st.sessions sid = none →
      InMemoryStore.get st sid now = .error .sessionNotFound) ∧
    (∀ s, AssocMap.lookup st.sessions sid = some s → now > s.expiresAt →
      InMemoryStore.get st sid now = .error .sessionExpired) ∧
    (AssocMap.lookup st.tokens tok = none →
      InMemoryStore.getByToken st tok now = .error .invalidToken) ∧
    (∀ i, AssocMap.lookup st.tokens tok = some i →
      AssocMap.lookup st.sessions i = none →
      InMemoryStore.getByToken st tok now = .error .sessionNotFound) ∧
    (∀ i s, AssocMap.lookup st.tokens tok = some i →
      AssocMap.lookup st.sessions i = some s → now > s.expiresAt →
      InMemoryStore.getByToken st tok now = .error .sessionExpired) ∧
    (∀ s, InMemoryStore.get st sid now = .ok s → now ≤ s.expiresAt) ∧
    (∀ s, InMemoryStore.getByToken st tok now = .ok s →
      now ≤ s.expiresAt) := by
  refine ⟨?_, ?_, ?_, ?_, ?_, ?_, ?_⟩
  · intro h
    simp [InMemoryStore.get, h]
  · intro s hs hexp
    simp [InMemoryStore.get, hs, hexp]
  · intro h
    simp [InMemoryStore.getByToken, h]
  · intro i hi hs
    simp [InMemoryStore.getByToken, hi, hs]
  · intro i s hi hs hexp
    simp [InMemoryStore.getByToken, hi, hs, hexp]
  · intro s h
    cases hl : AssocMap.lookup st.sessions sid with
    | none => simp [InMemoryStore.get, hl] at h
    | some s' =>
      simp only [InMemoryStore.get, hl] at h
      by_cases hexp : now > s'.expiresAt
      · rw [if_pos hexp] at h
        exact Except.noConfusion h
      · rw [if_neg hexp] at h
        cases h
        omega
  · intro s h
    cases hl : AssocMap.lookup st.tokens tok with
    | none => simp [InMemoryStore.getByToken, hl] at h
    | some i =>
      cases hl2 : AssocMap.lookup st.sessions i with
      | none => simp [InMemoryStore.getByToken, hl, hl2] at h
      | some s' =>
        simp only [InMemoryStore.getByToken, hl, hl2] at h
        by_cases hexp : now > s'.expiresAt
        · rw [if_pos hexp] at h
          exact Except.noConfusion h
        · rw [if_neg hexp] at h
          cases h
          omega

/-- Witness for C4: the amended theorem applied to a concrete store with
one expired session. -/
theorem C4_witness :
    InMemoryStore.get c4Store "absent-id" 5 = .error .sessionNotFound ∧
    InMemoryStore.getByToken c4Store "missing-token" 5 =
      .error .invalidToken ∧
    InMemoryStore.get c4Store "s9" 20 = .error .sessionExpired :=
  ⟨(C4_lookup_error_behaviour c4Store "absent-id" "missing-token" 5).1
      (by decide),
   (C4_lookup_error_behaviour c4Store "absent-id" "missing-token"
      5).2.2.1 (by decide),
   (C4_lookup_error_behaviour c4Store "s9" "missing-token" 20).2.1
      c4Session (by decide) (by decide)⟩

namespace K8s

theorem not_mem_filter_ne {α : Type} [DecidableEq α] (l : List α) (a : α) :
    a ∉ l.filter (fun q => decide (q ≠ a)) := by
  intro h
  have := List.of_mem_filter h
  simp at this

/-- The rollback helper leaves the cluster without the targeted principal,
whatever the starting state. -/
theorem sa_gone_after_delete (st : ClusterState) (ns name : String) :
    (ns, name) ∉ (deleteServiceAccount st ns name).1.serviceAccounts := by
  by_cases hmem : (ns, name) ∈ st.serviceAccounts
  · simp [deleteServiceAccount, hmem, not_mem_filter_ne]
  · simp [deleteServiceAccount, hmem]

theorem createRoleBinding_fail (st : ClusterState)
    (ns saName podName : String) (bf : Bool)
    (hb : bf = true ∨ (ns, roleBindingName saName) ∈ st.roleBindings) :
    ∃ st2, createRoleBinding st ns saName podName bf =
        (st2, some .createRoleBindingFailed) ∧
      st2.serviceAccounts = st.serviceAccounts := by
  by_cases hr : (ns, "vscode-session") ∈ st.roles
  · refine ⟨st, ?_, rfl⟩
    simp only [createRoleBinding]
    rw [if_pos hr, if_pos hb]
  · refine ⟨{ st with roles := (ns, "vscode-session") :: st.roles }, ?_, rfl⟩
    simp only [createRoleBinding]
    rw [if_neg hr, if_pos (by simpa using hb)]

theorem createRoleBinding_ok (st : ClusterState)
    (ns saName podName : String) (bf : Bool)
    (hb : ¬(bf = true ∨ (ns, roleBindingName saName) ∈ st.roleBindings)) :
    ∃ st2, createRoleBinding st ns saName podName bf = (st2, none) ∧
      st2.serviceAccounts = st.serviceAccounts := by
  by_cases hr : (ns, "vscode-session") ∈ st.roles
  · refine ⟨{ st with
        roleBindings := (ns, roleBindingName saName) :: st.roleBindings },
      ?_, rfl⟩
    simp only [createRoleBinding]
    rw [if_pos hr, if_neg hb]
  · refine ⟨{ st with
        roles := (ns, "vscode-session") :: st.roles,
        roleBindings := (ns, roleBindingName saName) :: st.roleBindings },
      ?_, rfl⟩
    simp only [createRoleBinding]
    rw [if_neg hr, if_neg (by simpa using hb)]

end K8s

/-- C2: credential minting is atomic with respect to failure. Whenever
the role-binding step or the token-minting step of
CreateSessionServiceAccount fails (through an injected upstream failure or
a pre-existing RoleBinding of the same name), the function returns an
error and the ServiceAccount created in its first step is no longer in
the cluster. -/
theorem C2_mint_rollback (st : ClusterState) (ns pod uuid : String)
    (bf mf : Bool)
    (hfree : (ns, K8s.sessionSAName uuid) ∉ st.serviceAccounts)
    (hfail : bf = true ∨ mf = true ∨
      (ns, K8s.roleBindingName (K8s.sessionSAName uuid)) ∈
        st.roleBindings) :
    exceptIsError
        (K8s.createSessionServiceAccount st ns pod uuid bf mf).2 = true ∧
    (ns, K8s.sessionSAName uuid) ∉
      ClusterState.serviceAccounts
        (K8s.createSessionServiceAccount st ns pod uuid bf mf).1 := by
  have hcsa : K8s.createServiceAccount st ns (K8s.sessionSAName uuid) =
      ({ st with
          serviceAccounts :=
            (ns, K8s.sessionSAName uuid) :: st.serviceAccounts }, none) := by
    simp [K8s.createServiceAccount, hfree]
  by_cases hb : bf = true ∨
    (ns, K8s.roleBindingName (K8s.sessionSAName uuid)) ∈ st.roleBindings
  · obtain ⟨st2, hrb, -⟩ :=
      K8s.createRoleBinding_fail
        { st with
            serviceAccounts :=
              (ns, K8s.sessionSAName uuid) :: st.serviceAccounts }
        ns (K8s.sessionSAName uuid) pod bf (by simpa using hb)
    unfold K8s.createSessionServiceAccount
    simp only [hcsa, hrb]
    exact ⟨rfl, K8s.sa_gone_after_delete st2 ns (K8s.sessionSAName uuid)⟩
  · obtain ⟨st2, hrb, hsa2⟩ :=
      K8s.createRoleBinding_ok
        { st with
            serviceAccounts :=
              (ns, K8s.sessionSAName uuid) :: st.serviceAccounts }
        ns (K8s.sessionSAName uuid) pod bf (by simpa using hb)
    have hmf : mf = true := by
      rcases hfail with h | h | h
      · exact absurd (Or.inl h) hb
      · exact h
      · exact absurd (Or.inr h) hb
    have hmint : K8s.mintToken st2 ns (K8s.sessionSAName uuid) 3600 mf =
        .error .mintTokenFailed := by
      rw [hmf]
      simp [K8s.mintToken]
    unfold K8s.createSessionServiceAccount
    simp only [hcsa, hrb, hmint]
    exact ⟨rfl, K8s.sa_gone_after_delete st2 ns (K8s.sessionSAName uuid)⟩

/-- Witness for C2: an injected role-binding failure on an empty cluster
returns an error and leaves no principal behind. -/
theorem C2_witness :
    exceptIsError
        (K8s.createSessionServiceAccount emptyCluster "user-alice"
          "nb-alice" c2UUID true false).2 = true ∧
    ("user-alice", K8s.sessionSAName c2UUID) ∉
      (K8s.createSessionServiceAccount emptyCluster "user-alice"
        "nb-alice" c2UUID true false).1.serviceAccounts :=
  C2_mint_rollback emptyCluster "user-alice" "nb-alice" c2UUID true false
    (by decide) (Or.inl rfl)

/-- C7 counterexample: the first revoke of a credential succeeds and
removes binding and principal, but the second revoke of the same
credential returns an error ("failed to delete service account") instead
of succeeding idempotently, because a ServiceAccount deletion failure is
raised to the caller. -/
theorem C7_counterexample :
    K8s.deleteServiceAccount c7Cluster "user-alice"
        "vscode-sess-9e107d9d" = (c7ClusterAfter, none) ∧
    (K8s.deleteServiceAccount c7ClusterAfter "user-alice"
        "vscode-sess-9e107d9d").2 = some .deleteSAFailed := by decide

/-- C7 (amended): revocation deletes the permission binding first and the
principal second; the binding deletion's outcome is ignored and the
principal deletion is attempted regardless of it; a binding-deletion
failure is never raised — but a principal-deletion failure (in particular
on a second revoke of the same credential) is returned to the caller as an
error, so revoke is not error-free when called twice. -/
theorem C7_revoke_behaviour (st : ClusterState) (ns name : String) :
    ((K8s.deleteServiceAccount st ns name).1.roleBindings =
      st.roleBindings.filter
        (fun q => decide (q ≠ (ns, K8s.roleBindingName name)))) ∧
    ((ns, name) ∈ st.serviceAccounts →
      K8s.deleteServiceAccount st ns name =
        ({ serviceAccounts :=
              st.serviceAccounts.filter (fun q => decide (q ≠ (ns, name))),
            roles := st.roles,
            roleBindings :=
              st.roleBindings.filter
                (fun q => decide (q ≠ (ns, K8s.roleBindingName name))) },
          none)) ∧
    ((ns, name) ∉ st.serviceAccounts →
      (K8s.deleteServiceAccount st ns name).2 = some .deleteSAFailed) := by
  refine ⟨?_, ?_, ?_⟩
  · by_cases hmem : (ns, name) ∈ st.serviceAccounts <;>
      simp [K8s.deleteServiceAccount, hmem]
  · intro hmem
    simp [K8s.deleteServiceAccount, hmem]
  · intro hmem
    simp [K8s.deleteServiceAccount, hmem]

/-- Witness for C7: the amended theorem applied to a one-credential
cluster (first revoke) and to the post-revoke cluster (second revoke). -/
theorem C7_witness :
    K8s.deleteServiceAccount c7Cluster "user-alice"
        "vscode-sess-9e107d9d" =
      ({ serviceAccounts :=
            c7Cluster.serviceAccounts.filter
              (fun q => decide (q ≠ ("user-alice", "vscode-sess-9e107d9d"))),
          roles := c7Cluster.roles,
          roleBindings :=
            c7Cluster.roleBindings.filter
              (fun q => decide (q ≠ ("user-alice",
                K8s.roleBindingName "vscode-sess-9e107d9d"))) }, none) ∧
    (K8s.deleteServiceAccount c7ClusterAfter "user-alice"
        "vscode-sess-9e107d9d").2 = some .deleteSAFailed :=
  ⟨(C7_revoke_behaviour c7Cluster "user-alice" "vscode-sess-9e107d9d").2.1
      (by decide),
   (C7_revoke_behaviour c7ClusterAfter "user-alice"
      "vscode-sess-9e107d9d").2.2 (by decide)⟩

/-- C1: the claim that tunnel-close cleanup deletes the ServiceAccount
under the name it was created with fails on the code. The cleanup derives
the name from the first 8 bytes of the session id, while creation derived
it from the first 8 bytes of a fresh UUID that is never recorded; at this
concrete session the tunnel-close delete therefore targets a nonexistent
account, fails, and leaves the session's scoped credential alive in the
cluster after the tunnel has closed. -/
theorem C1_scoped_credential_outlives_session :
    Tunnel.tunnelCloseCleanupName c1Session ≠ K8s.sessionSAName c1UUID ∧
    exceptIsError
      (Tunnel.tunnelOpenMint emptyCluster c1Session c1UUID
        false false).2 = false ∧
    ("user-alice", K8s.sessionSAName c1UUID) ∈
      ClusterState.serviceAccounts
        (Tunnel.tunnelCloseCleanup
          (Tunnel.tunnelOpenMint emptyCluster c1Session c1UUID
            false false).1 c1Session).1 ∧
    (Tunnel.tunnelCloseCleanup
      (Tunnel.tunnelOpenMint emptyCluster c1Session c1UUID
        false false).1 c1Session).2 = some .deleteSAFailed := by decide

/-- C5: the tunnel endpoint upgrades exactly when the presented token
resolves to a live session whose id equals the path's session id; on any
registry failure, or when the resolved id differs from the path's id, the
request is rejected with 401 and the upgrade handler is never entered. -/
theorem C5_tunnel_auth_gate (st : InMemoryStore) (sid tok : String)
    (now : Nat) :
    (∀ s, Tunnel.handleTunnel st sid tok now = .connected s ↔
      (InMemoryStore.getByToken st tok now = .ok s ∧ s.id = sid)) ∧
    (∀ e, InMemoryStore.getByToken st tok now = .error e →
      Tunnel.handleTunnel st sid tok now = .rejected 401) ∧
    (∀ s, InMemoryStore.getByToken st tok now = .ok s → s.id ≠ sid →
      Tunnel.handleTunnel st sid tok now = .rejected 401) := by
  refine ⟨?_, ?_, ?_⟩
  · intro s
    constructor
    · intro h
      cases hg : InMemoryStore.getByToken st tok now with
      | error e => simp [Tunnel.handleTunnel, hg] at h
      | ok s' =>
        simp only [Tunnel.handleTunnel, hg] at h
        by_cases hid : s'.id ≠ sid
        · rw [if_pos hid] at h
          exact absurd h (by simp)
        · rw [if_neg hid] at h
          injection h with h'
          subst h'
          exact ⟨rfl, by simpa using hid⟩
    · rintro ⟨hg, hid⟩
      simp [Tunnel.handleTunnel, hg, hid]
  · intro e he
    simp [Tunnel.handleTunnel, he]
  · intro s hs hid
    simp [Tunnel.handleTunnel, hs, hid]

/-- Witness for C5: at a concrete store, the matching (token, id) pair is
connected and a bogus token is rejected with 401. -/
theorem C5_witness :
    Tunnel.handleTunnel c3Store "s1" "t1" 0 = .connected c3Session ∧
    Tunnel.handleTunnel c3Store "s1" "bogus-token" 0 = .rejected 401 :=
  ⟨((C5_tunnel_auth_gate c3Store "s1" "t1" 0).1 c3Session).mpr
      ⟨by decide, rfl⟩,
   (C5_tunnel_auth_gate c3Store "s1" "bogus-token" 0).2.1 .invalidToken
      (by decide)⟩

/-- C6: an inbound message whose type tag is none of exec, portforward
and file is answered with a single "error"-tagged message on the same
connection and is otherwise ignored; the read loop continues (the step
result is a respond, not an exit). -/
theorem C6_unknown_tag_answered_and_ignored (m : Tunnel.TunnelMessage)
    (h1 : m.type ≠ "exec") (h2 : m.type ≠ "portforward")
    (h3 : m.type ≠ "file") :
    Tunnel.stepTunnelLoop (.msg m) =
      .respond [Tunnel.sendError ("Unknown message type: " ++ m.type)] := by
  simp [Tunnel.stepTunnelLoop, h1, h2, h3]

/-- Witness for C6: a concrete message with the unrecognized tag
"telemetry". -/
theorem C6_witness :
    Tunnel.stepTunnelLoop
        (.msg { type := "telemetry", payload := .undecodable }) =
      .respond
        [Tunnel.sendError ("Unknown message type: " ++ "telemetry")] :=
  C6_unknown_tag_answered_and_ignored
    { type := "telemetry", payload := .undecodable }
    (by decide) (by decide) (by decide)

/-- C9: the write-then-read round trip fails on the code. The file
handler supports only "read" and "list"; a "write" falls to the default
arm and is answered with an unsuccessful file_response, and a subsequent
"read" of the same path returns the canned string "Content of <path>"
rather than the written content. -/
theorem C9_write_read_roundtrip_fails :
    Tunnel.executeFileOperation c9WriteOp =
      { success := false, content := "",
        error := "Unsupported operation: write" } ∧
    Tunnel.handleFileRequest (.fileReq c9WriteOp) =
      [{ type := "file_response",
         payload := .fileResp
           { success := false, content := "",
             error := "Unsupported operation: write" } }] ∧
    Tunnel.executeFileOperation c9ReadOp =
      { success := true, content := "Content of /home/alice/notes.txt",
        error := "" } ∧
    "Content of /home/alice/notes.txt" ≠ "hello" := by decide

namespace Base64

theorem decSextets_encSextets :
    ∀ bs : List Nat, (∀ b ∈ bs, b < 256) →
      decSextets (encSextets bs) = some bs := by
  intro bs
  induction bs using encSextets.induct with
  | case1 => intro _; rfl
  | case2 a =>
    intro h
    have ha : a < 256 := h a (by simp)
    simp only [encSextets, decSextets]
    congr 1
    have : a / 4 * 4 + a % 4 * 16 / 16 = a := by omega
    rw [this]
  | case3 a b =>
    intro h
    have ha : a < 256 := h a (by simp)
    have hb : b < 256 := h b (by simp)
    simp only [encSextets, decSextets]
    congr 1
    have h1 : a / 4 * 4 + (a % 4 * 16 + b / 16) / 16 = a := by omega
    have h2 : (a % 4 * 16 + b / 16) % 16 * 16 + b % 16 * 4 / 4 = b := by
      omega
    rw [h1, h2]
  | case4 a b c rest ih =>
    intro h
    have ha : a < 256 := h a (by simp)
    have hb : b < 256 := h b (by simp)
    have hc : c < 256 := h c (by simp)
    have hrest : ∀ x ∈ rest, x < 256 := fun x hx =>
      h x (by simp [hx])
    simp only [encSextets, decSextets]
    rw [ih hrest]
    simp only [Option.map_some']
    congr 1
    have h1 : a / 4 * 4 + (a % 4 * 16 + b / 16) / 16 = a := by omega
    have h2 : (a % 4 * 16 + b / 16) % 16 * 16 +
        (b % 16 * 4 + c / 64) / 4 = b := by omega
    have h3 : (b % 16 * 4 + c / 64) % 4 * 64 + c % 64 = c := by omega
    rw [h1, h2, h3]

theorem encSextets_lt :
    ∀ bs : List Nat, (∀ b ∈ bs, b < 256) →
      ∀ s ∈ encSextets bs, s < 64 := by
  intro bs
  induction bs using encSextets.induct with
  | case1 => intro _ s hs; simp [encSextets] at hs
  | case2 a =>
    intro h s hs
    have ha : a < 256 := h a (by simp)
    simp [encSextets] at hs
    rcases hs with h1 | h1 <;> omega
  | case3 a b =>
    intro h s hs
    have ha : a < 256 := h a (by simp)
    have hb : b < 256 := h b (by simp)
    simp [encSextets] at hs
    rcases hs with h1 | h1 | h1 <;> omega
  | case4 a b c rest ih =>
    intro h s hs
    have ha : a < 256 := h a (by simp)
    have hb : b < 256 := h b (by simp)
    have hc : c < 256 := h c (by simp)
    have hrest : ∀ x ∈ rest, x < 256 := fun x hx => h x (by simp [hx])
    simp [encSextets] at hs
    rcases hs with h1 | h1 | h1 | h1 | h1
    · omega
    · omega
    · omega
    · omega
    · exact ih hrest s h1

theorem charToSextet_sextetToChar :
    ∀ n < 64, charToSextet (sextetToChar n) = some n := by decide

theorem sextetToChar_ne_pad : ∀ n < 64, sextetToChar n ≠ '=' := by decide

theorem sextetToChar_ne_quote : ∀ n < 64, sextetToChar n ≠ '"' := by decide

theorem sextetToChar_ascii : ∀ n < 64, (sextetToChar n).toNat < 128 := by
  decide

theorem decodeChars_map_sextetToChar (l : List Nat)
    (h : ∀ s ∈ l, s < 64) :
    decodeChars (l.map sextetToChar) = some l := by
  induction l with
  | nil => rfl
  | cons s l ih =>
    have hs : s < 64 := h s (by simp)
    have hl : ∀ x ∈ l, x < 64 := fun x hx => h x (by simp [hx])
    simp only [List.map_cons, decodeChars,
      charToSextet_sextetToChar s hs, ih hl, Option.some_bind,
      Option.map_some']

theorem dropWhile_replicate_append (p : Char → Bool) (a : Char)
    (hp : p a = true) (k : Nat) (l : List Char) :
    (List.replicate k a ++ l).dropWhile p = l.dropWhile p := by
  induction k with
  | zero => simp
  | succ k ih => simp [List.replicate_succ, List.dropWhile, hp, ih]

theorem dropWhile_of_forall_not (p : Char → Bool) (l : List Char)
    (h : ∀ c ∈ l, p c = false) : l.dropWhile p = l := by
  cases l with
  | nil => rfl
  | cons c cs => simp [List.dropWhile, h c (by simp)]

theorem stripTrailingPad_append (cs : List Char) (k : Nat)
    (h : ∀ c ∈ cs, c ≠ '=') :
    stripTrailingPad (cs ++ List.replicate k '=') = cs := by
  unfold stripTrailingPad
  rw [List.reverse_append, List.reverse_replicate]
  rw [dropWhile_replicate_append _ '=' (by simp) k]
  rw [dropWhile_of_forall_not _ _ (by
    intro c hc
    simp only [decide_eq_false_iff_not]
    exact h c (List.mem_reverse.mp hc))]
  exact List.reverse_reverse cs

/-- Full round trip: Go's padded URL-safe decode inverts the padded
URL-safe encode on every byte list. -/
theorem base64urlDecode_padded (bytes : List Nat)
    (h : ∀ b ∈ bytes, b < 256) :
    base64urlDecode (base64urlPadded bytes) = some bytes := by
  unfold base64urlDecode base64urlPadded
  have hchars : ∀ c ∈ (encSextets bytes).map sextetToChar, c ≠ '=' := by
    intro c hc
    rcases List.mem_map.mp hc with ⟨s, hs, rfl⟩
    exact sextetToChar_ne_pad s (encSextets_lt bytes h s hs)
  rw [show (String.mk ((encSextets bytes).map sextetToChar ++
      List.replicate (padLen bytes.length) '=')).data =
      (encSextets bytes).map sextetToChar ++
        List.replicate (padLen bytes.length) '=' from rfl]
  rw [stripTrailingPad_append _ _ hchars]
  rw [decodeChars_map_sextetToChar _ (encSextets_lt bytes h)]
  simpa using decSextets_encSextets bytes h

end Base64

theorem bytesToString_stringToBytes (s : String) :
    bytesToString (stringToBytes s) = s := by
  unfold bytesToString stringToBytes
  rw [List.map_map]
  have : (Char.ofNat ∘ Char.toNat) = id := by
    funext c
    simp [Function.comp]
  rw [this, List.map_id]

namespace Auth

theorem stripLead_append (p l : List Char) :
    stripLead p (p ++ l) = some l := by
  induction p with
  | nil => rfl
  | cons c cs ih => simp [stripLead, ih]

theorem takeUntilQuote_append (a : List Char)
    (h : ∀ c ∈ a, c ≠ '"') (rest : List Char) :
    takeUntilQuote (a ++ '"' :: rest) = some (a, rest) := by
  induction a with
  | nil => simp [takeUntilQuote]
  | cons c cs ih =>
    have hc : c ≠ '"' := h c (by simp)
    have hcs : ∀ x ∈ cs, x ≠ '"' := fun x hx => h x (by simp [hx])
    simp [takeUntilQuote, hc, ih hcs]

theorem parseStateData_marshalStateData (v s : String)
    (hv : ∀ c ∈ v.data, c ≠ '"') (hs : ∀ c ∈ s.data, c ≠ '"') :
    parseStateData (marshalStateData v s) = some (v, s) := by
  unfold parseStateData marshalStateData
  simp only [stripLead_append, takeUntilQuote_append v.data hv,
    takeUntilQuote_append s.data hs]
  rw [if_pos trivial]

theorem encSextets_ne_nil (bs : List Nat) (h : bs ≠ []) :
    Base64.encSextets bs ≠ [] := by
  match bs with
  | [] => exact absurd rfl h
  | [a] => simp [Base64.encSextets]
  | [a, b] => simp [Base64.encSextets]
  | a :: b :: c :: rest => simp [Base64.encSextets]

theorem base64urlNoPad_char_prop (bytes : List Nat)
    (h : ∀ b ∈ bytes, b < 256) :
    ∀ c ∈ (Base64.base64urlNoPad bytes).data, c ≠ '"' ∧ c.toNat < 128 := by
  intro c hc
  have hc' : c ∈ (Base64.encSextets bytes).map Base64.sextetToChar := hc
  rcases List.mem_map.mp hc' with ⟨s, hs, rfl⟩
  have hlt := Base64.encSextets_lt bytes h s hs
  exact ⟨Base64.sextetToChar_ne_quote s hlt,
    Base64.sextetToChar_ascii s hlt⟩

theorem marshal_bytes_lt (v s : String)
    (hv : ∀ c ∈ v.data, c.toNat < 256)
    (hs : ∀ c ∈ s.data, c.toNat < 256) :
    ∀ b ∈ stringToBytes (marshalStateData v s), b < 256 := by
  intro b hb
  have hb' : b ∈ (jsonHead ++ (v.data ++ ('"' :: (jsonMid ++
      (s.data ++ ('"' :: ('\x7d' :: []))))))).map Char.toNat := hb
  rcases List.mem_map.mp hb' with ⟨c, hc, rfl⟩
  have hhead : ∀ c ∈ jsonHead, c.toNat < 256 := by decide
  have hmid : ∀ c ∈ jsonMid, c.toNat < 256 := by decide
  simp only [List.mem_append, List.mem_cons] at hc
  rcases hc with h1 | h1 | h1 | h1 | h1 | h1 | h1
  · exact hhead c h1
  · exact hv c h1
  · subst h1; decide
  · exact hmid c h1
  · exact hs c h1
  · subst h1; decide
  · simp at h1
    subst h1
    decide

end Auth

/-- C8: in every login flow, the flow state returned by StartFlow decodes
(base64url, then the JSON state object) back to the code verifier
generated in that flow; the code_challenge parameter embedded in the same
flow's authorization URL is exactly the base64url-no-pad encoding of the
SHA-256 digest of that verifier; and HandleCallback recovers exactly that
verifier from the flow state. The SHA-256 primitive enters as an
arbitrary digest function producing bytes. -/
theorem C8_pkce_flow_coherent (cfg : Auth.OIDCConfig)
    (sha256 : List Nat → List Nat) (vR sR : List Nat)
    (hv : ∀ b ∈ vR, b < 256) (hsr : ∀ b ∈ sR, b < 256)
    (hne : vR ≠ []) :
    Auth.handleCallbackVerifier (Auth.startFlow cfg sha256 vR sR).2 =
      some (Auth.generateCodeVerifier vR) ∧
    AssocMap.lookup (Auth.startFlow cfg sha256 vR sR).1.params
        "code_challenge" =
      some (Base64.base64urlNoPad
        (sha256 (stringToBytes (Auth.generateCodeVerifier vR)))) := by
  have hverifier_chars := Auth.base64urlNoPad_char_prop vR hv
  have hstate_chars := Auth.base64urlNoPad_char_prop sR hsr
  have hvq : ∀ c ∈ (Auth.generateCodeVerifier vR).data, c ≠ '"' :=
    fun c hc => (hverifier_chars c hc).1
  have hvascii : ∀ c ∈ (Auth.generateCodeVerifier vR).data,
      c.toNat < 256 :=
    fun c hc => lt_trans (hverifier_chars c hc).2 (by norm_num)
  have hsq : ∀ c ∈ (Auth.generateState sR).data, c ≠ '"' :=
    fun c hc => (hstate_chars c hc).1
  have hsascii : ∀ c ∈ (Auth.generateState sR).data, c.toNat < 256 :=
    fun c hc => lt_trans (hstate_chars c hc).2 (by norm_num)
  have hbytes := Auth.marshal_bytes_lt _ _ hvascii hsascii
  have h1 := Base64.base64urlDecode_padded _ hbytes
  have h2 := bytesToString_stringToBytes
    (Auth.marshalStateData (Auth.generateCodeVerifier vR)
      (Auth.generateState sR))
  have h3 := Auth.parseStateData_marshalStateData _ _ hvq hsq
  have h4 : Auth.generateCodeVerifier vR ≠ "" := by
    intro he
    exact Auth.encSextets_ne_nil vR hne
      (by simpa [Auth.generateCodeVerifier, Base64.base64urlNoPad]
        using congrArg String.data he)
  constructor
  · show Auth.handleCallbackVerifier
      (Base64.base64urlPadded (stringToBytes
        (Auth.marshalStateData (Auth.generateCodeVerifier vR)
          (Auth.generateState sR)))) =
      some (Auth.generateCodeVerifier vR)
    simp only [Auth.handleCallbackVerifier, h1, h2, h3]
    rw [if_neg h4]
  · show AssocMap.lookup
      (Auth.buildAuthURL cfg
        (Auth.generateCodeChallenge sha256 (Auth.generateCodeVerifier vR))
        (Auth.generateState sR)).params "code_challenge" =
      some (Base64.base64urlNoPad
        (sha256 (stringToBytes (Auth.generateCodeVerifier vR))))
    simp [Auth.buildAuthURL, AssocMap.lookup, Auth.generateCodeChallenge]

/-- Witness for C8: a concrete flow with three verifier bytes and two
state bytes. -/
theorem C8_witness :
    Auth.handleCallbackVerifier
        (Auth.startFlow c8Config c8Hash [10, 20, 30] [1, 2]).2 =
      some (Auth.generateCodeVerifier [10, 20, 30]) ∧
    AssocMap.lookup
        (Auth.startFlow c8Config c8Hash [10, 20, 30] [1, 2]).1.params
        "code_challenge" =
      some (Base64.base64urlNoPad
        (c8Hash (stringToBytes
          (Auth.generateCodeVerifier [10, 20, 30])))) :=
  C8_pkce_flow_coherent c8Config c8Hash [10, 20, 30] [1, 2]
    (by decide) (by decide) (by decide)

end PurdueAF

